import Mathlib

/-!
Verification of the query-classification-and-dispatch pipeline of the
Testing-Gofannon repository.

The Python sources are embedded shallowly:

* strings are Lean `String`s processed code-point-wise over `String.data`
  (Python `str` indexing/slicing is by code point, as here);
* machine-level floating point is not modelled: numeric values extracted
  from text are kept exactly as `ℚ` (the decimal rendering of a Python
  float in an f-string is abstracted by `floatRepr`, which no claim
  inspects);
* statements that can raise a Python exception are modelled in the
  `Except PyErr` monad; `try/except` blocks in the source become explicit
  `match`es on the `Except` value;
* calls into external collaborators (the gofannon tool library, the
  `requests` HTTP client, `xml.etree.ElementTree.fromstring`, `json`
  decoding) are parameters of the embedded functions: the caller supplies
  the outcome of the call (`Except` for calls that may raise).

Sources embedded: advanced_agent.py (`AdvAgent`), simplified_agent.py
(`SimpAgent`), simplified_advanced_agent.py (`SimpAdvAgent`),
enhanced_arxiv.py (`Arxiv`), my_agent.py (`BasicAgent`).
-/

set_option maxRecDepth 100000

/-! ## Python string primitives -/

/-- Python exception kinds that the embedded code can raise. -/
inductive PyErr where
  | typeError
  | attributeError
  | valueError
  | zeroDivisionError
deriving DecidableEq

/-- Equality of `Except` outcomes is decidable when it is on both sides. -/
instance exceptDecEq {ε α : Type} [DecidableEq ε] [DecidableEq α] :
    DecidableEq (Except ε α)
  | .ok a, .ok b =>
    if h : a = b then .isTrue (by rw [h]) else .isFalse (by intro hc; cases hc; exact h rfl)
  | .error a, .error b =>
    if h : a = b then .isTrue (by rw [h]) else .isFalse (by intro hc; cases hc; exact h rfl)
  | .ok _, .error _ => .isFalse (by intro hc; cases hc)
  | .error _, .ok _ => .isFalse (by intro hc; cases hc)

/-- Python `str.lower()` (ASCII range; every keyword in the sources is ASCII). -/
def pyLower (s : String) : String := String.mk (s.data.map Char.toLower)

/-- Python `str.upper()` on a single character, used by `str.title()`. -/
def pyCharUp (c : Char) : Char := Char.toUpper c

/-- `needle in hay` on character lists: some tail of `hay` starts with `needle`. -/
def isSubOf (needle : List Char) : List Char → Bool
  | [] => needle.isEmpty
  | c :: t => needle.isPrefixOf (c :: t) || isSubOf needle t

/-- Python `term in s` substring test. -/
def strContains (hay needle : String) : Bool := isSubOf needle.data hay.data

/-- Python `any(term in q for term in terms)`. -/
def containsAny (q : String) (terms : List String) : Bool :=
  terms.any (fun t => strContains q t)

/-- Python whitespace for `str.split()` / `str.strip()`. -/
def pyIsSpace (c : Char) : Bool :=
  c = ' ' || c = '\t' || c = '\n' || c = '\r' || c = Char.ofNat 11 || c = Char.ofNat 12

/-- Worker for `pyWords`; `acc` holds the current word reversed. -/
def pyWordsGo (acc : List Char) : List Char → List String
  | [] => if acc.isEmpty then [] else [String.mk acc.reverse]
  | c :: cs =>
    if pyIsSpace c then
      if acc.isEmpty then pyWordsGo [] cs
      else String.mk acc.reverse :: pyWordsGo [] cs
    else pyWordsGo (c :: acc) cs

/-- Python `str.split()` with no argument: whitespace-separated words, empties dropped. -/
def pyWords (s : String) : List String := pyWordsGo [] s.data

/-- Python `str.strip()`. -/
def pyStrip (s : String) : String :=
  String.mk (((s.data.dropWhile pyIsSpace).reverse.dropWhile pyIsSpace).reverse)

/-- Python `s[:n]` (slicing is by code point). -/
def pyTake (s : String) (n : Nat) : String := String.mk (s.data.take n)

/-- Worker for `pyReplace`: fuel-driven left-to-right non-overlapping replacement.
The fuel starts at the length of the subject and each step consumes at least one
character, so the `0` case is never reached on the initial call. -/
def pyReplaceGo (old new : List Char) : Nat → List Char → List Char
  | _, [] => []
  | 0, l => l
  | fuel + 1, c :: cs =>
    if old.isPrefixOf (c :: cs) then
      new ++ pyReplaceGo old new fuel ((c :: cs).drop old.length)
    else
      c :: pyReplaceGo old new fuel cs

/-- Python `s.replace(old, new)`; the sources only call it with non-empty `old`. -/
def pyReplace (s old new : String) : String :=
  if old.data.isEmpty then s
  else String.mk (pyReplaceGo old.data new.data s.data.length s.data)

/-- Python `sep.join(xs)`. -/
def joinWith (sep : String) : List String → String
  | [] => ""
  | [x] => x
  | x :: xs => x ++ sep ++ joinWith sep xs

/-- Worker for `pyTitle`: capitalize a letter that follows a non-letter, lowercase
letters that follow a letter (Python `str.title()` restricted to ASCII letters). -/
def pyTitleGo (prevAlpha : Bool) : List Char → List Char
  | [] => []
  | c :: cs =>
    (if c.isAlpha then (if prevAlpha then Char.toLower c else Char.toUpper c) else c)
      :: pyTitleGo c.isAlpha cs

/-- Python `str.title()`. -/
def pyTitle (s : String) : String := String.mk (pyTitleGo false s.data)

/-- Value of a list of decimal digit characters. -/
def digitsToNat (ds : List Char) : Nat := ds.foldl (fun a c => 10 * a + (c.toNat - 48)) 0

/-! ## Numeric extraction (`re.findall`) -/

/-- Scanner state for the `\d+\.?\d*` scan: outside a number, inside the integer
part (accumulator reversed), or past the decimal point (accumulator reversed). -/
inductive NumScanState where
  | outside
  | intPart (acc : List Char)
  | fracPart (acc : List Char)

/-- Left-to-right maximal-munch scan for `re.findall(r'\d+\.?\d*', s)`. -/
def numScanGo (st : NumScanState) : List Char → List String
  | [] =>
    match st with
    | .outside => []
    | .intPart acc => [String.mk acc.reverse]
    | .fracPart acc => [String.mk acc.reverse]
  | c :: cs =>
    match st with
    | .outside =>
      if c.isDigit then numScanGo (.intPart [c]) cs else numScanGo .outside cs
    | .intPart acc =>
      if c.isDigit then numScanGo (.intPart (c :: acc)) cs
      else if c = '.' then numScanGo (.fracPart (c :: acc)) cs
      else String.mk acc.reverse :: numScanGo .outside cs
    | .fracPart acc =>
      if c.isDigit then numScanGo (.fracPart (c :: acc)) cs
      else String.mk acc.reverse :: numScanGo .outside cs

/-- Python `re.findall(r'\d+\.?\d*', s)`: the decimal tokens, left to right. -/
def findFloatTokens (s : String) : List String := numScanGo .outside s.data

/-- Worker for `findIntTokens`; `acc` is the current digit run reversed (if any). -/
def intScanGo (acc : Option (List Char)) : List Char → List String
  | [] =>
    match acc with
    | none => []
    | some ds => [String.mk ds.reverse]
  | c :: cs =>
    match acc with
    | none => if c.isDigit then intScanGo (some [c]) cs else intScanGo none cs
    | some ds =>
      if c.isDigit then intScanGo (some (c :: ds)) cs
      else String.mk ds.reverse :: intScanGo none cs

/-- Python `re.findall(r'\d+', s)`: maximal digit runs, left to right. -/
def findIntTokens (s : String) : List String := intScanGo none s.data

/-- Python `float(tok)` for a token produced by `findFloatTokens` (digits, then an
optional `.` and further digits); the value is kept exactly as a rational. -/
def numTokenToRat (s : String) : ℚ :=
  let ip := s.data.takeWhile Char.isDigit
  let rest := s.data.dropWhile Char.isDigit
  match rest with
  | _ :: fs => (digitsToNat ip : ℚ) + mkRat (digitsToNat fs) (10 ^ fs.length)
  | [] => (digitsToNat ip : ℚ)

/-- Rendering of a Python float in an f-string. Exact floating-point decimal
formatting is outside the scope of this embedding (no claim depends on it);
the numeric value itself is kept exactly as `ℚ`. -/
def floatRepr (q : ℚ) : String := toString q

/-- Python `a / b` on numbers: raises `ZeroDivisionError` on a zero divisor. -/
def pyDiv (a b : ℚ) : Except PyErr ℚ :=
  if b = 0 then .error .zeroDivisionError else .ok (a / b)

/-- `r` is `.ok s` for a string `s` containing `needle`. -/
def okContains (r : Except PyErr String) (needle : String) : Bool :=
  match r with
  | .ok s => strContains s needle
  | .error _ => false

/-! ## Intent classifiers -/

/-- Math keyword set of `_determine_query_type` (identical in advanced_agent.py,
simplified_advanced_agent.py and simplified_agent.py). -/
def advMathTerms : List String :=
  ["calculate", "add", "sum", "plus",
   "subtract", "minus", "difference",
   "multiply", "product", "times",
   "divide", "quotient",
   "power", "exponent", "squared", "cubed"]

/-- Knowledge keyword set of `_determine_query_type` (advanced variants). -/
def advKnowledgeTerms : List String :=
  ["research", "paper", "article", "study",
   "academic", "science", "scientific",
   "physics", "math", "computer science",
   "biology", "publication"]

/-- Reasoning keyword set of `_determine_query_type` (advanced variants). -/
def advReasoningTerms : List String :=
  ["explain", "why", "how", "reason",
   "analyze", "consider", "evaluate",
   "what is", "define", "meaning of"]

/-- Search keyword set of `_determine_query_type` (advanced variants). -/
def advSearchTerms : List String :=
  ["search", "find", "look up",
   "information about", "tell me about",
   "what do you know about"]

/-- `AdvancedAgent._determine_query_type` / `SimplifiedAdvancedAgent._determine_query_type`
(the two functions are textually identical). -/
def advDetermineQueryType (query : String) : String :=
  let ql := pyLower query
  if containsAny ql advMathTerms then "math"
  else if containsAny ql advKnowledgeTerms then "knowledge"
  else if containsAny ql advReasoningTerms then "reasoning"
  else if containsAny ql advSearchTerms then "search"
  else "reasoning"

/-- Search keyword set of `SimplifiedAgent._determine_query_type`. -/
def simpSearchTerms : List String :=
  ["search", "find", "look up", "google",
   "information about", "tell me about"]

/-- `SimplifiedAgent._determine_query_type`. -/
def simpDetermineQueryType (query : String) : String :=
  let ql := pyLower query
  if containsAny ql advMathTerms then "math"
  else if containsAny ql simpSearchTerms then "search"
  else "general"

/-! ## XML element trees (`xml.etree.ElementTree`)

The repository hands the raw ArXiv response text to `ET.fromstring` (an external
collaborator) and then walks the resulting element tree.  The embedding works on
the tree directly; namespace-qualified tags such as `atom:entry` are modelled by
their local names (`"entry"`), since the namespace map is fixed in the sources. -/

/-- An XML element: tag, attributes, text content (`None` for an empty element),
and child elements in document order. -/
inductive Element where
  | mk (tag : String) (attrs : List (String × String)) (text : Option String)
      (children : List Element)

/-- Tag of an element. -/
def Element.tag : Element → String
  | .mk t _ _ _ => t

/-- Attribute list of an element. -/
def Element.attrs : Element → List (String × String)
  | .mk _ a _ _ => a

/-- `elem.text` (may be `None`). -/
def Element.text : Element → Option String
  | .mk _ _ x _ => x

/-- Children of an element, in document order. -/
def Element.children : Element → List Element
  | .mk _ _ _ cs => cs

mutual

/-- All proper descendants of an element, in document order (the `.//` axis). -/
def Element.allDesc : Element → List Element
  | .mk _ _ _ cs => elemListDesc cs

/-- Each element of the list followed by its descendants, in document order. -/
def elemListDesc : List Element → List Element
  | [] => []
  | c :: rest => c :: (Element.allDesc c ++ elemListDesc rest)

end

/-- `root.findall('.//ns:tag')`: all descendants with the given tag. -/
def findAllDesc (tag : String) (root : Element) : List Element :=
  root.allDesc.filter (fun e => e.tag == tag)

/-- `root.find('.//ns:tag')`: first descendant with the given tag. -/
def findFirstDesc (tag : String) (root : Element) : Option Element :=
  (findAllDesc tag root).head?

/-- `elem.findall('./ns:tag')`: direct children with the given tag. -/
def childrenNamed (tag : String) (e : Element) : List Element :=
  e.children.filter (fun c => c.tag == tag)

/-- `elem.find('./ns:tag')`: first direct child with the given tag. -/
def childNamed (tag : String) (e : Element) : Option Element :=
  (childrenNamed tag e).head?

/-- `elem.get(key)`: first attribute with the given name, if any. -/
def attrGet (key : String) (e : Element) : Option String :=
  ((e.attrs.filter (fun p => p.1 == key)).head?).map (fun p => p.2)

/-- Python `int(s)` on a string: optional sign and decimal digits after
stripping whitespace; anything else raises `ValueError`. -/
def pyIntOfChars (l : List Char) : Except PyErr Int :=
  match l with
  | '-' :: ds =>
    if !ds.isEmpty && ds.all Char.isDigit then .ok (-(digitsToNat ds : Int))
    else .error .valueError
  | '+' :: ds =>
    if !ds.isEmpty && ds.all Char.isDigit then .ok (digitsToNat ds : Int)
    else .error .valueError
  | ds =>
    if !ds.isEmpty && ds.all Char.isDigit then .ok (digitsToNat ds : Int)
    else .error .valueError

/-- Python `int(v)` on an element text: `int(None)` raises `TypeError`. -/
def pyInt (v : Option String) : Except PyErr Int :=
  match v with
  | none => .error .typeError
  | some s => pyIntOfChars (pyStrip s).data

/-- CPython attaches a message string to every exception; its exact wording is
not modelled (no claim inspects it). -/
def pyErrMessage : PyErr → String
  | .typeError => "TypeError"
  | .attributeError => "AttributeError"
  | .valueError => "ValueError"
  | .zeroDivisionError => "ZeroDivisionError"

/-- Python value of `d.get(key, default)` for a key whose stored value may be
`None`: `none` = key absent (default used), `some none` = stored `None`,
`some (some s)` = stored string.  The result is a Python value
(`none` = `None`). -/
def pyGetD (v : Option (Option String)) (d : String) : Option String :=
  match v with
  | none => some d
  | some w => w

/-- Rendering of a Python value in an f-string: `None` prints as `"None"`. -/
def pyShow (v : Option String) : String :=
  match v with
  | none => "None"
  | some s => s

/-- Python `v.lower()` on a value that may be `None`: raises `AttributeError`. -/
def pyLowerVal : Option String → Except PyErr String
  | none => .error .attributeError
  | some s => .ok (pyLower s)

/-! ## AdvancedAgent (advanced_agent.py) -/

/-- The greeting/filler inputs special-cased by the agents. -/
def advGreetings : List String := ["testing", "test", "hello", "hi"]

/-- The fixed help template returned for greeting/filler inputs
(`_simulate_reasoning` in advanced_agent.py; textually identical in
`SimplifiedAdvancedAgent.run`). -/
def advGreetTemplate : String :=
  "I can help you with various types of questions:\n            \n1. Math questions - Try asking \"Calculate 25 + 17\" or \"What is 8 times 9?\"\n2. Research paper searches - Try asking \"Find research papers about quantum computing\"\n3. General knowledge questions - Try asking \"Tell me about artificial intelligence\"\n\nWhat would you like to know about?"

/-- The fixed suggestion template returned for queries of at most two words
(`_simulate_reasoning` in advanced_agent.py; textually identical in
`SimplifiedAdvancedAgent.run`). -/
def advShortSuggestTemplate (query : String) : String :=
  "I notice you've asked about \"" ++ query ++ "\". I can provide more information if you ask a more specific question.\n\nTry asking something like:\n1. \"Tell me about " ++ query ++ "\"\n2. \"What is " ++ query ++ " used for?\"\n3. \"Find research papers about " ++ query ++ "\"\n4. \"Calculate 25 + 17\" (for math questions)"

/-- The canned explanation returned by `_simulate_reasoning` for queries
mentioning "egg". -/
def advEggText : String :=
  "I'll explain what an egg is:\n\nStep 1: Basic Definition\n  An egg is a reproductive cell or structure laid by female animals, particularly birds, reptiles, and some fish and invertebrates. In everyday contexts, the term usually refers to chicken eggs used in cooking.\n\nStep 2: Structure and Composition\n  A typical bird egg consists of several parts:\n  - Shell: A hard protective outer layer made primarily of calcium carbonate\n  - Membranes: Thin layers just inside the shell that protect against bacterial infection\n  - Air cell: A pocket of air usually at the larger end of the egg\n  - Albumen: The egg white, which is mostly protein (primarily albumin)\n  - Yolk: The yellow center, rich in fats, proteins, vitamins, and minerals\n  - Chalazae: Rope-like strands that anchor the yolk in the center of the egg\n\nStep 3: Function and Significance\n  Eggs serve as:\n  - A reproductive structure containing nutrients and everything needed for an embryo to develop\n  - An important food source for humans, containing high-quality protein and various nutrients\n  - A versatile culinary ingredient used in countless recipes across many cultures\n"

/-- `AdvancedAgent._get_reasoning_action`. -/
def advReasoningAction (query : String) : String :=
  if containsAny (pyLower query) ["calculate", "add", "subtract", "multiply", "divide"] then
    "perform the mathematical operation implied in the query"
  else if containsAny (pyLower query) ["explain", "why", "how", "what is"] then
    "provide an explanation about the concept mentioned in the query"
  else if containsAny (pyLower query) ["find", "search", "look up"] then
    "search for relevant information about the topic"
  else
    "analyze the query to determine the best approach to answer it"

/-- `AdvancedAgent._get_reasoning_conclusion`. -/
def advReasoningConclusion (query : String) : String :=
  if containsAny (pyLower query) ["calculate", "add", "subtract", "multiply", "divide"] then
    "I would provide the mathematical result after performing the calculation"
  else if containsAny (pyLower query) ["explain", "why", "how", "what is"] then
    "I would provide a clear explanation of the concept, with relevant examples if helpful"
  else if containsAny (pyLower query) ["find", "search", "look up"] then
    "I would present the most relevant information found during the search"
  else
    "I would provide a comprehensive answer addressing all aspects of the query"

/-- `AdvancedAgent._simulate_reasoning` (the `steps` parameter is accepted but
never read by its body, so it is omitted here). -/
def advSimulateReasoning (query knowledgeBase : String) : String :=
  let ql := pyLower query
  if advGreetings.contains ql then advGreetTemplate
  else if (pyWords ql).length ≤ 2 then advShortSuggestTemplate query
  else if strContains ql "egg" then advEggText
  else
    let baseInfo :=
      if knowledgeBase = "" then ""
      else "Based on available information: " ++ knowledgeBase ++ "\n\n"
    if ql = "gear" then advGreetTemplate
    else
      baseInfo ++ "I'll break down my thought process for answering: '" ++ query
        ++ "'\n\n" ++ "Step 1: First, I need to understand what the query is asking for.\n"
        ++ "  The query is about: " ++ query ++ "\n\n"
        ++ "Step 2: I'll identify what information or calculations are needed.\n"
        ++ "  For this query, I would need to " ++ advReasoningAction query ++ "\n\n"
        ++ "Step 3: Now I can formulate my response based on the analysis.\n"
        ++ "  " ++ advReasoningConclusion query ++ "\n"

/-- Parsed ArXiv entry of `AdvancedAgent._parse_arxiv_response`: a field is
`none` when its element was absent (dictionary key never set) and
`some none` when the element was present with empty text. -/
structure AdvEntry where
  title : Option (Option String)
  authors : List String
  summary : Option (Option String)
  link : Option (Option String)
  published : Option (Option String)
deriving DecidableEq

/-- Per-entry part of `AdvancedAgent._parse_arxiv_response`. -/
def parseAdvEntry (e : Element) : AdvEntry :=
  { title := (childNamed "title" e).map Element.text
    authors :=
      ((childrenNamed "author" e).flatMap (childrenNamed "name")).filterMap
        (fun a =>
          match a.text with
          | some t => if t = "" then none else some t
          | none => none)
    summary := (childNamed "summary" e).map Element.text
    link := (childNamed "id" e).map Element.text
    published := (childNamed "published" e).map Element.text }

/-- Result of `AdvancedAgent` knowledge retrieval: either the error dictionary
(`{'error': ..., 'xml': ...}` from a parse failure — `xmlSnippet` set — or
`{'error': ...}` from a failed network call — `xmlSnippet` absent), or the
parsed result dictionary. -/
inductive AdvKnowledge where
  | err (msg : String) (xmlSnippet : Option String)
  | res (totalResults : Int) (entries : List AdvEntry)
deriving DecidableEq

/-- Body of `AdvancedAgent._parse_arxiv_response` inside its `try`: the only
statement that can raise is `int(total_results.text)`. -/
def advParseArxivBody (root : Element) : Except PyErr AdvKnowledge := do
  let total ←
    match findFirstDesc "totalResults" root with
    | some el => pyInt el.text
    | none => pure 0
  pure (.res total ((findAllDesc "entry" root).map parseAdvEntry))

/-- `AdvancedAgent._parse_arxiv_response`.  The first argument is the raw
response text, the second the outcome of `ET.fromstring` on it (an external
call: `.error` = the parser raised). -/
def advParseArxivResponse (xmlText : String) (parsed : Except String Element) :
    AdvKnowledge :=
  match parsed with
  | .error e => .err e (some (pyTake xmlText 200 ++ "..."))
  | .ok root =>
    match advParseArxivBody root with
    | .ok r => r
    | .error e => .err (pyErrMessage e) (some (pyTake xmlText 200 ++ "..."))

/-- `AdvancedAgent.execute_knowledge`: the argument is the outcome of the
ArXiv tool call — `.error` when the call raised (caught, giving the
`{'error': str(e)}` dictionary), `.ok (raw, parsed)` when it returned text
`raw` on which `ET.fromstring` gives `parsed`. -/
def advExecuteKnowledge (call : Except String (String × Except String Element)) :
    AdvKnowledge :=
  match call with
  | .error msg => .err msg none
  | .ok (raw, parsed) => advParseArxivResponse raw parsed

/-- `AdvancedAgent.execute_reasoning`: builds the knowledge base from a one-entry
ArXiv lookup, then uses the remote reasoning tool when an OpenAI key is present
(falling back to the local simulator when that call raises), else simulates.
`reasonFn` is the outcome of the external `sequential_cot` call. -/
def advExecuteReasoning (hasOpenai : Bool) (reasonFn : Except String String)
    (arxiv : AdvKnowledge) (topic : String) : String :=
  let knowledgeBase :=
    match arxiv with
    | .res _ (e :: _) => "Based on scientific literature: " ++ pyShow (pyGetD e.summary "")
    | _ => ""
  if hasOpenai then
    match reasonFn with
    | .ok r => r
    | .error _ => advSimulateReasoning topic knowledgeBase
  else advSimulateReasoning topic knowledgeBase

/-- `AdvancedAgent.format_reasoning_response` (its callers always supply a
dictionary containing the `reasoning` key and no `error` key). -/
def advFormatReasoningResponse (hasOpenai : Bool) (query reasoning : String) :
    String :=
  "Reasoning for your query: '" ++ query ++ "'\n\n" ++ reasoning ++
    (if hasOpenai then ""
     else "\n\n(Note: This is a simulated response. Set up an OpenAI API key for real reasoning.)")

/-- Replace each prefix by the empty string and strip, in order (the loop shared
by `_parse_knowledge_query` / `_parse_search_query`). -/
def stripPrefixes (s : String) : List String → String
  | [] => s
  | p :: ps => stripPrefixes (pyStrip (pyReplace s p "")) ps

/-- Topic extraction of `AdvancedAgent._parse_knowledge_query` (the topic is
only passed to the external ArXiv call). -/
def advParseKnowledgeTopic (query : String) : String :=
  stripPrefixes (pyLower query)
    ["what is", "tell me about", "define", "explain", "research on", "papers about"]

/-- Search-term extraction of `AdvancedAgent._parse_search_query`. -/
def advParseSearchTerm (query : String) : String :=
  stripPrefixes (pyLower query)
    ["search for", "search", "find", "look up", "tell me about",
     "information about", "what do you know about"]

/-- Leftmost match of `(\d+)\s+steps?` at the given position, for
`_parse_reasoning_query`. -/
def stepMatchAt (l : List Char) : Option Nat :=
  let ds := l.takeWhile Char.isDigit
  if ds.isEmpty then none
  else
    let r1 := l.dropWhile Char.isDigit
    if (r1.takeWhile pyIsSpace).isEmpty then none
    else if "step".data.isPrefixOf (r1.dropWhile pyIsSpace) then some (digitsToNat ds)
    else none

/-- `re.search(r'(\d+)\s+steps?', s)`: scan for the leftmost match. -/
def stepSearch : List Char → Option Nat
  | [] => none
  | c :: cs =>
    match stepMatchAt (c :: cs) with
    | some n => some n
    | none => stepSearch cs

/-- `AdvancedAgent._parse_reasoning_query`: topic and requested step count
(default 3). -/
def advParseReasoningQuery (query : String) : String × Nat :=
  (query, (stepSearch query.data).getD 3)

/-- Parsed math query of `AdvancedAgent._parse_math_query`. -/
structure MathParsed where
  operations : List String
  numbers : List ℚ
deriving DecidableEq

/-- `AdvancedAgent._parse_math_query`. -/
def advParseMathQuery (query : String) : MathParsed :=
  { numbers := (findFloatTokens query).map numTokenToRat
    operations :=
      (if containsAny (pyLower query) ["add", "sum", "plus", "+"] then ["addition"] else [])
      ++ (if containsAny (pyLower query) ["subtract", "minus", "difference", "-"] then ["subtraction"] else [])
      ++ (if containsAny (pyLower query) ["multiply", "product", "times", "*", "×"] then ["multiplication"] else [])
      ++ (if containsAny (pyLower query) ["divide", "quotient", "/", "÷"] then ["division"] else [])
      ++ (if containsAny (pyLower query) ["power", "exponent", "^", "**", "squared", "cubed"] then ["exponents"] else []) }

/-- The five gofannon math tools (external collaborators): each call either
returns a number or raises with a message. -/
structure MathTools where
  addition : ℚ → ℚ → Except String ℚ
  subtraction : ℚ → ℚ → Except String ℚ
  multiplication : ℚ → ℚ → Except String ℚ
  division : ℚ → ℚ → Except String ℚ
  exponents : ℚ → ℚ → Except String ℚ

/-- A value stored in the results dictionary of `AdvancedAgent.execute_math`:
a number or an error string. -/
inductive MathCell where
  | val (x : ℚ)
  | errText (s : String)
deriving DecidableEq

/-- Result of `AdvancedAgent.execute_math`: the `{'error': ...}` dictionary for
fewer than two numbers, or the per-operation results in insertion order. -/
inductive AdvMathResults where
  | errTooFew
  | cells (l : List (String × MathCell))
deriving DecidableEq

/-- Outcome of one tool call inside the `try` of `execute_math`. -/
def mathToCell : Except String ℚ → MathCell
  | .ok v => .val v
  | .error e => .errText ("Error: " ++ e)

/-- `AdvancedAgent.execute_math`. -/
def advExecuteMath (tools : MathTools) (pq : MathParsed) : AdvMathResults :=
  if pq.numbers.length < 2 then .errTooFew
  else
    let num1 := pq.numbers.getD 0 0
    let num2 := pq.numbers.getD 1 0
    .cells (pq.operations.filterMap (fun op =>
      if op = "addition" then some (op, mathToCell (tools.addition num1 num2))
      else if op = "subtraction" then some (op, mathToCell (tools.subtraction num1 num2))
      else if op = "multiplication" then some (op, mathToCell (tools.multiplication num1 num2))
      else if op = "division" then
        some (op,
          if num2 = 0 then .errText "Error: Division by zero"
          else mathToCell (tools.division num1 num2))
      else if op = "exponents" then some (op, mathToCell (tools.exponents num1 num2))
      else none))

/-- Display of a math result cell in an f-string. -/
def cellStr : MathCell → String
  | .val v => floatRepr v
  | .errText s => s

/-- The per-operation lines of `format_math_response` (operations outside the
five known labels add no line). -/
def advMathLines : List (String × MathCell) → String
  | [] => ""
  | (op, cell) :: rest =>
    (if op = "addition" then "Addition result: " ++ cellStr cell ++ "\n"
     else if op = "subtraction" then "Subtraction result: " ++ cellStr cell ++ "\n"
     else if op = "multiplication" then "Multiplication result: " ++ cellStr cell ++ "\n"
     else if op = "division" then "Division result: " ++ cellStr cell ++ "\n"
     else if op = "exponents" then "Exponentiation result: " ++ cellStr cell ++ "\n"
     else "") ++ advMathLines rest

/-- `AdvancedAgent.format_math_response`. -/
def advFormatMathResponse (query : String) : AdvMathResults → String
  | .errTooFew =>
    "I couldn't process your math query: Need at least two numbers for calculations"
  | .cells [] => "I couldn't identify any math operations to perform in your query."
  | .cells l => "For your query: '" ++ query ++ "'\n\n" ++ advMathLines l

/-- Search outcome of `AdvancedAgent.execute_search`: the error dictionary when
the live backend is configured, else the simulated result dictionary. -/
inductive AdvSearch where
  | err (msg : String)
  | simulated (searchTerm : String)
deriving DecidableEq

/-- `AdvancedAgent.execute_search`. -/
def advExecuteSearch (hasSearch : Bool) (searchTerm : String) : AdvSearch :=
  if hasSearch then .err "Real search API call not implemented in this demo"
  else .simulated searchTerm

/-- The three simulated search results of `AdvancedAgent.execute_search`. -/
def advSimulatedItems (t : String) : List (String × String) :=
  [("Simulated result 1 for '" ++ t ++ "'", "This is a simulated search result."),
   ("Simulated result 2 for '" ++ t ++ "'", "This is another simulated search result."),
   ("Simulated result 3 for '" ++ t ++ "'", "This is yet another simulated search result.")]

/-- The numbered lines of `format_search_response`. -/
def advSearchLines (i : Nat) : List (String × String) → String
  | [] => ""
  | (ti, sn) :: rest =>
    toString i ++ ". " ++ ti ++ "\n" ++ "   " ++ sn ++ "\n\n" ++ advSearchLines (i + 1) rest

/-- `AdvancedAgent.format_search_response`. -/
def advFormatSearchResponse (query : String) : AdvSearch → String
  | .err m => "I couldn't process your search query: " ++ m
  | .simulated t =>
    "Search results for: '" ++ query ++ "'\n\n" ++ advSearchLines 1 (advSimulatedItems t)
      ++ "\n" ++ "These are simulated results. Set up API keys for real search functionality."

/-- The lines of `format_knowledge_response` for one entry.  `len(summary)` on a
summary that parsed to `None` (empty `<summary/>` element) raises `TypeError`. -/
def advEntryLines (i : Nat) (e : AdvEntry) : Except PyErr String := do
  let titleStr := pyShow (pyGetD e.title "Untitled paper")
  let authorsStr := joinWith ", " e.authors
  let sumStr ←
    match e.summary with
    | none => pure ""
    | some none => .error PyErr.typeError
    | some (some s) => pure (if 300 < s.length then pyTake s 300 ++ "..." else s)
  let linkPart :=
    match e.link with
    | some (some t) => if t = "" then "" else "   Link: " ++ t ++ "\n"
    | _ => ""
  pure (toString i ++ ". " ++ titleStr ++ "\n" ++ "   Authors: " ++ authorsStr ++ "\n"
    ++ "   Summary: " ++ sumStr ++ "\n" ++ linkPart ++ "\n")

/-- The entry loop of `format_knowledge_response` (`entries[:3]`, numbering
from `i`). -/
def advEntriesLoop (i : Nat) : List AdvEntry → Except PyErr String
  | [] => pure ""
  | e :: rest => do
    let s ← advEntryLines i e
    let r ← advEntriesLoop (i + 1) rest
    pure (s ++ r)

/-- `AdvancedAgent.format_knowledge_response`. -/
def advFormatKnowledgeResponse (hasOpenai : Bool) (query : String) :
    AdvKnowledge → Except PyErr String
  | .err _ _ =>
    pure (advFormatReasoningResponse hasOpenai query (advSimulateReasoning query ""))
  | .res total entries =>
    if entries.isEmpty then
      pure ("I couldn't find specific research articles about '" ++ query
        ++ "'. Would you like me to try a different approach?")
    else do
      let body ← advEntriesLoop 1 (entries.take 3)
      pure ("Here's what I found about '" ++ query ++ "' from scientific research:\n\n"
        ++ body ++ "\nTotal results found: " ++ toString total)

/-- `AdvancedAgent.run`: classify, dispatch, format.  The external-call
outcomes (`tools`, `reasonFn`, `arxivCall`) are parameters; a `.error` result
means the Python call would raise an uncaught exception. -/
def advRun (hasOpenai hasSearch : Bool) (tools : MathTools)
    (reasonFn : Except String String)
    (arxivCall : Except String (String × Except String Element))
    (query : String) : Except PyErr String :=
  let qt := advDetermineQueryType query
  if qt = "math" then
    .ok (advFormatMathResponse query (advExecuteMath tools (advParseMathQuery query)))
  else if qt = "reasoning" then
    .ok (advFormatReasoningResponse hasOpenai query
      (advExecuteReasoning hasOpenai reasonFn (advExecuteKnowledge arxivCall) query))
  else if qt = "search" then
    .ok (advFormatSearchResponse query (advExecuteSearch hasSearch (advParseSearchTerm query)))
  else if qt = "knowledge" then
    advFormatKnowledgeResponse hasOpenai query (advExecuteKnowledge arxivCall)
  else .ok "I'm not sure how to process this type of query."

/-! ## SimplifiedAgent (simplified_agent.py) -/

/-- A Google Custom Search item as seen through `json` decoding: each field is
`none` when the key is absent, `some none` for JSON `null`, `some (some s)` for
a string. -/
structure GItem where
  title : Option (Option String)
  link : Option (Option String)
  snippet : Option (Option String)
deriving DecidableEq

/-- `SimplifiedAgent.execute_math`.  The `int()` conversions cannot raise (the
tokens are non-empty digit runs), the division is guarded, so the only
modelled raise site `pyDiv` is never hit with a zero divisor. -/
def simpExecuteMath (query : String) : Except PyErr String :=
  let numbers := findIntTokens query
  if numbers.length < 2 then
    .ok "I need at least two numbers to perform a calculation."
  else
    let num1 := digitsToNat (numbers.getD 0 "").data
    let num2 := digitsToNat (numbers.getD 1 "").data
    let ql := pyLower query
    if containsAny ql ["add", "sum", "plus"] then
      .ok ("The result of addition is: " ++ toString (num1 + num2))
    else if containsAny ql ["subtract", "minus", "difference"] then
      .ok ("The result of subtraction is: " ++ toString ((num1 : Int) - num2))
    else if containsAny ql ["multiply", "product", "times"] then
      .ok ("The result of multiplication is: " ++ toString (num1 * num2))
    else if containsAny ql ["divide", "quotient"] then
      if num2 = 0 then .ok "Cannot divide by zero."
      else do
        let r ← pyDiv (num1 : ℚ) (num2 : ℚ)
        pure ("The result of division is: " ++ floatRepr r)
    else if containsAny ql ["power", "exponent", "squared", "cubed"] then
      .ok ("The result of exponentiation is: " ++ toString (num1 ^ num2))
    else .ok "I couldn't determine the math operation to perform."

/-- The numbered lines of the live-search formatting in
`SimplifiedAgent.execute_search` (`results["items"][:3]` already applied). -/
def simpSearchLines (i : Nat) : List GItem → String
  | [] => ""
  | it :: rest =>
    toString i ++ ". **" ++ pyShow (pyGetD it.title "No title") ++ "**\n"
      ++ "   " ++ pyShow (pyGetD it.snippet "No description") ++ "\n"
      ++ "   URL: " ++ pyShow (pyGetD it.link "No link") ++ "\n\n"
      ++ simpSearchLines (i + 1) rest

/-- `SimplifiedAgent._provide_simulated_search_results`. -/
def simpSimulatedResults (query : String) : String :=
  let fq := pyTitle (pyStrip query)
  let dash := pyLower (pyReplace query " " "-")
  "Here are some search results for '" ++ query ++ "':\n\n"
    ++ "1. **" ++ fq ++ ": A Comprehensive Guide**\n"
    ++ "   This comprehensive guide covers everything you need to know about " ++ query
    ++ ", including history, applications, and future developments.\n"
    ++ "   URL: https://example.com/guide-to-" ++ dash ++ "\n\n"
    ++ "2. **The Complete History of " ++ fq ++ "**\n"
    ++ "   Learn about the origins and evolution of " ++ query
    ++ " through the ages, with insights from leading experts in the field.\n"
    ++ "   URL: https://example.com/history-of-" ++ dash ++ "\n\n"
    ++ "3. **Latest Research on " ++ fq ++ " (2025)**\n"
    ++ "   Discover the most recent scientific breakthroughs and research findings related to "
    ++ query ++ ", published in leading academic journals.\n"
    ++ "   URL: https://example.com/research-" ++ dash ++ "\n\n"
    ++ "4. **" ++ fq ++ " for Beginners: Getting Started**\n"
    ++ "   A beginner-friendly introduction to " ++ query
    ++ " with practical examples and step-by-step tutorials for newcomers.\n"
    ++ "   URL: https://example.com/beginners-" ++ dash ++ "\n\n"
    ++ "5. **Top 10 Applications of " ++ fq ++ " in Modern Industry**\n"
    ++ "   Explore how " ++ query
    ++ " is being applied across various industries to solve real-world problems and drive innovation.\n"
    ++ "   URL: https://example.com/applications-" ++ dash ++ "\n\n"
    ++ "Note: These are simulated search results. For actual web search results, please configure the Google Search API keys in your environment variables."

/-- `SimplifiedAgent.execute_search`.  `web` is the outcome of the external
`requests.get(...).json()` pair: `.error` when either raised (caught, falling
back to simulated results), `.ok none` when the decoded body has no `"items"`
key, `.ok (some items)` otherwise. -/
def simpExecuteSearch (hasGoogle : Bool) (web : Except String (Option (List GItem)))
    (query : String) : String :=
  let searchQuery :=
    pyStrip (pyReplace (pyReplace (pyReplace query "search" "") "find" "") "look up" "")
  if hasGoogle then
    match web with
    | .error _ => simpSimulatedResults searchQuery
    | .ok none => "No results found for '" ++ searchQuery ++ "'."
    | .ok (some items) =>
      "Here are the top search results:\n\n" ++ simpSearchLines 1 (items.take 3)
  else simpSimulatedResults searchQuery

/-- Greeting template of `SimplifiedAgent.execute_general` (differs from the
advanced variant: its second suggestion is about search). -/
def simpGreetTemplate : String :=
  "I can help you with various types of questions:\n            \n1. Math questions - Try asking \"Calculate 25 + 17\" or \"What is 8 times 9?\"\n2. Search queries - Try asking \"Search for information about artificial intelligence\"\n\nWhat would you like to know about?"

/-- Short-query template of `SimplifiedAgent.execute_general`. -/
def simpShortTemplate (query : String) : String :=
  "I notice you've asked about \"" ++ query ++ "\". I can provide more information if you ask a more specific question.\n\nTry asking something like:\n1. \"Tell me about " ++ query ++ "\"\n2. \"Search for information about " ++ query ++ "\"\n3. \"Calculate 25 + 17\" (for math questions)"

/-- `SimplifiedAgent.execute_general`. -/
def simpExecuteGeneral (query : String) : String :=
  let ql := pyLower query
  if advGreetings.contains ql then simpGreetTemplate
  else if (pyWords ql).length ≤ 2 then simpShortTemplate query
  else
    "I received your question: '" ++ query
      ++ "'. This is a simplified version of the agent that only handles math and search queries. Try asking a math question like 'What is 5 plus 7?' or a search query like 'Search for information about artificial intelligence'."

/-- `SimplifiedAgent.process_query`. -/
def simpProcessQuery (hasGoogle : Bool) (web : Except String (Option (List GItem)))
    (query : String) : Except PyErr String :=
  let qt := simpDetermineQueryType query
  if qt = "math" then simpExecuteMath query
  else if qt = "search" then .ok (simpExecuteSearch hasGoogle web query)
  else .ok (simpExecuteGeneral query)

/-! ## SimplifiedAdvancedAgent (simplified_advanced_agent.py) -/

/-- `SimplifiedAdvancedAgent._process_math_query` (an exclusive `elif` chain,
unlike the multi-operation advanced variant; no exponent branch). -/
def simpAdvProcessMathQuery (query : String) : String :=
  let numbers := findIntTokens query
  if numbers.length < 2 then "I need at least two numbers to perform a calculation."
  else
    let n0s := numbers.getD 0 ""
    let n1s := numbers.getD 1 ""
    let a := digitsToNat n0s.data
    let b := digitsToNat n1s.data
    if containsAny (pyLower query) ["add", "sum", "plus", "+"] then
      "The result of " ++ n0s ++ " addition " ++ n1s ++ " is " ++ toString (a + b) ++ "."
    else if containsAny (pyLower query) ["subtract", "minus", "difference", "-"] then
      "The result of " ++ n0s ++ " subtraction " ++ n1s ++ " is " ++ toString ((a : Int) - b) ++ "."
    else if containsAny (pyLower query) ["multiply", "product", "times", "*", "x"] then
      "The result of " ++ n0s ++ " multiplication " ++ n1s ++ " is " ++ toString (a * b) ++ "."
    else if containsAny (pyLower query) ["divide", "quotient", "/"] then
      if b = 0 then "I cannot divide by zero."
      else "The result of " ++ n0s ++ " division " ++ n1s ++ " is " ++ floatRepr (mkRat a b) ++ "."
    else "I'm not sure what mathematical operation you want me to perform."

/-- `SimplifiedAdvancedAgent._process_search_query`. -/
def simpAdvProcessSearchQuery (query : String) : String :=
  let t :=
    pyStrip (pyReplace (pyReplace (pyReplace (pyLower query) "search" "") "find" "") "look up" "")
  "Here are some search results for \"" ++ t ++ "\":\n\n1. Introduction to "
    ++ pyTitle t ++ " - A comprehensive guide\n2. " ++ pyTitle t
    ++ ": Definition, History, and Modern Applications\n3. Top 10 Resources to Learn About "
    ++ pyTitle t ++ "\n4. Latest Research on " ++ pyTitle t ++ " (2025)\n5. " ++ pyTitle t
    ++ " for Beginners: Getting Started\n\nTo view any of these results, please ask for more information about a specific result."

/-- `SimplifiedAdvancedAgent._process_knowledge_query`. -/
def simpAdvProcessKnowledgeQuery (query : String) : String :=
  let topic :=
    stripPrefixes (pyLower query)
      ["what is", "tell me about", "define", "explain", "research on", "papers about"]
  "Here are some research papers about \"" ++ topic ++ "\":\n\n1. \"" ++ pyTitle topic
    ++ ": A Comprehensive Review\" - Published in Journal of Advanced Research (2024)\n   Authors: Smith, J., Johnson, A.\n   Abstract: This paper provides a thorough examination of "
    ++ topic ++ " and its applications across various domains.\n\n2. \"Recent Advances in "
    ++ pyTitle topic
    ++ " Technology\" - Conference on Innovation (2023)\n   Authors: Williams, R., Brown, T., Davis, M.\n   Abstract: We present the latest technological developments in the field of "
    ++ topic ++ " with a focus on practical implementations.\n\n3. \"The Future of "
    ++ pyTitle topic
    ++ ": Challenges and Opportunities\" - Science Today (2025)\n   Authors: Garcia, E., Martinez, L.\n   Abstract: This study explores upcoming trends in "
    ++ topic
    ++ " research and identifies key areas for future investigation.\n\nTo read the full paper, please specify which one you're interested in."

/-- `SimplifiedAdvancedAgent._process_reasoning_query`. -/
def simpAdvProcessReasoningQuery (query : String) : String :=
  "To answer your question about \"" ++ query
    ++ "\", I would consider the following:\n\n1. First, I would need to understand the core concepts related to "
    ++ query
    ++ ".\n2. Then, I would analyze the different perspectives and approaches to this topic.\n3. Finally, I would synthesize this information to provide a comprehensive answer.\n\nBased on this analysis, I can tell you that "
    ++ query
    ++ " is an important topic with many facets to consider. To provide a more detailed response, I would need to use advanced reasoning capabilities which require an API key.\n\nWould you like to try asking a math question or searching for research papers instead?"

/-- `SimplifiedAdvancedAgent.run`: greeting and short-input special cases come
before classification; then dispatch on the (shared) classifier. -/
def simpAdvRun (query : String) : String :=
  let ql := pyLower query
  if advGreetings.contains ql then advGreetTemplate
  else if (pyWords ql).length ≤ 2 then advShortSuggestTemplate query
  else
    let qt := advDetermineQueryType query
    if qt = "math" then simpAdvProcessMathQuery query
    else if qt = "search" then simpAdvProcessSearchQuery query
    else if qt = "knowledge" then simpAdvProcessKnowledgeQuery query
    else simpAdvProcessReasoningQuery query

/-! ## EnhancedArxivSearch (enhanced_arxiv.py) -/

/-- Parsed ArXiv entry of `EnhancedArxivSearch._parse_arxiv_response`.
`title`/`summary`/`published` follow the `AdvEntry` conventions; `link` is
always assigned (its value may be Python `None`); `citationCount` and
`enhancedLink` are only assigned by the enhancement step (their stored value
may itself be `None`). -/
structure EEntry where
  title : Option (Option String)
  authors : List String
  summary : Option (Option String)
  link : Option String
  published : Option (Option String)
  categories : List String
  citationCount : Option (Option Nat) := none
  enhancedLink : Option (Option String) := none
deriving DecidableEq

/-- Parsed result set of `EnhancedArxivSearch._parse_arxiv_response`. -/
structure ArxivResults where
  totalResults : Int
  entries : List EEntry
deriving DecidableEq

/-- Per-entry part of `EnhancedArxivSearch._parse_arxiv_response`: like the
advanced variant plus the pdf-link preference and category terms. -/
def arxivParseEntry (e : Element) : EEntry :=
  let pdfHref :=
    (((childrenNamed "link" e).filter (fun l => attrGet "title" l == some "pdf")).head?).bind
      (attrGet "href")
  let pdfTruthy :=
    match pdfHref with
    | some s => !(s == "")
    | none => false
  { title := (childNamed "title" e).map Element.text
    authors :=
      ((childrenNamed "author" e).flatMap (childrenNamed "name")).filterMap
        (fun a =>
          match a.text with
          | some t => if t = "" then none else some t
          | none => none)
    summary := (childNamed "summary" e).map Element.text
    link :=
      if pdfTruthy then pdfHref
      else
        match childNamed "id" e with
        | some el => el.text
        | none => pdfHref
    published := (childNamed "published" e).map Element.text
    categories :=
      (childrenNamed "category" e).filterMap (fun c =>
        match attrGet "term" c with
        | some t => if t = "" then none else some t
        | none => none) }

/-- Body of `EnhancedArxivSearch._parse_arxiv_response` inside its `try`. -/
def arxivParseBody (root : Element) : Except PyErr ArxivResults := do
  let total ←
    match findFirstDesc "totalResults" root with
    | some el => pyInt el.text
    | none => pure 0
  pure ⟨total, (findAllDesc "entry" root).map arxivParseEntry⟩

/-- `EnhancedArxivSearch._parse_arxiv_response`: `none` models a falsy
`xml_text` (the `_query_arxiv` failure path returns `None`), `.error` models
`ET.fromstring` raising; every failure yields the empty result set. -/
def arxivParseResponse (xml : Option (Except String Element)) : ArxivResults :=
  match xml with
  | none => ⟨0, []⟩
  | some (.error _) => ⟨0, []⟩
  | some (.ok root) =>
    match arxivParseBody root with
    | .ok r => r
    | .error _ => ⟨0, []⟩

/-- Worker for `wordTokens`: maximal runs of `\w` characters. -/
def wordScanGo (acc : Option (List Char)) : List Char → List String
  | [] =>
    match acc with
    | none => []
    | some ds => [String.mk ds.reverse]
  | c :: cs =>
    let isWord := c.isAlphanum || c = '_'
    match acc with
    | none => if isWord then wordScanGo (some [c]) cs else wordScanGo none cs
    | some ds =>
      if isWord then wordScanGo (some (c :: ds)) cs
      else String.mk ds.reverse :: wordScanGo none cs

/-- Python `re.findall(r'\w+', s)` (ASCII word characters). -/
def wordTokens (s : String) : List String := wordScanGo none s.data

/-- `EnhancedArxivSearch._similarity_score`: word-set overlap divided by the
larger set size, 0 when either set is empty.  The Python comparison is between
floats; the value is kept exactly as `ℚ` (for the quotients that occur —
small word-set sizes — float and exact comparison agree). -/
def similarityScore (text1 text2 : String) : ℚ :=
  let words1 := (wordTokens (pyLower text1)).toFinset
  let words2 := (wordTokens (pyLower text2)).toFinset
  if words1 = ∅ ∨ words2 = ∅ then 0
  else mkRat ((words1 ∩ words2).card) (max words1.card words2.card)

/-- Scan for the leftmost match of `cited by (\d+)`. -/
def citedScanGo : List Char → Option Nat
  | [] => none
  | c :: cs =>
    if "cited by ".data.isPrefixOf (c :: cs) then
      let ds := ((c :: cs).drop 9).takeWhile Char.isDigit
      if ds.isEmpty then citedScanGo cs else some (digitsToNat ds)
    else citedScanGo cs

/-- `EnhancedArxivSearch._extract_citation_count`. -/
def extractCitationCount (snippet : String) : Option Nat :=
  citedScanGo (pyLower snippet).data

/-- The inner loop of `_enhance_with_google`: first Google item whose title is
similar enough; `title.lower()` on a JSON `null` title raises. -/
def findGoogleMatch (arxivTitle : String) : List GItem → Except PyErr (Option GItem)
  | [] => .ok none
  | it :: rest => do
    let gt ← pyLowerVal (pyGetD it.title "")
    if mkRat 6 10 < similarityScore arxivTitle gt then .ok (some it)
    else findGoogleMatch arxivTitle rest

/-- Processing of one entry by `_enhance_with_google`: on a match, assign
`citation_count` and `enhanced_link`; a raise leaves the entry untouched
(both assignments happen after every raise site). -/
def enhanceEntry (items : List GItem) (e : EEntry) : Except PyErr EEntry :=
  match pyLowerVal (pyGetD e.title "") with
  | .error er => .error er
  | .ok arxivTitle =>
    match findGoogleMatch arxivTitle items with
    | .error er => .error er
    | .ok none => .ok e
    | .ok (some it) =>
      match pyGetD it.snippet "" with
      | none => .error PyErr.attributeError
      | some snip =>
        .ok { e with
          citationCount := some (extractCitationCount snip)
          enhancedLink := some it.link.join }

/-- The entry loop of `_enhance_with_google`: entries are mutated in place one
at a time, and an exception aborts the loop — the entries already processed
keep their new fields, the failing entry and the rest stay untouched. -/
def enhanceEntriesGo (items : List GItem) : List EEntry → List EEntry
  | [] => []
  | e :: rest =>
    match enhanceEntry items e with
    | .ok e2 => e2 :: enhanceEntriesGo items rest
    | .error _ => e :: rest

/-- `EnhancedArxivSearch._enhance_with_google`.  `web` is the outcome of the
external `requests.get(...).json()` pair (a raise there is caught before any
entry is touched); `.ok none` models a decoded body without an `"items"` key. -/
def enhanceWithGoogle (hasGoogle : Bool) (web : Except String (Option (List GItem)))
    (r : ArxivResults) : ArxivResults :=
  if hasGoogle then
    match web with
    | .error _ => r
    | .ok none => r
    | .ok (some items) => { r with entries := enhanceEntriesGo items r.entries }
  else r

/-- A display entry produced by `EnhancedArxivSearch._format_results`
(field values may be Python `None`). -/
structure FEntry where
  title : Option String
  authors : String
  published : Option String
  categories : String
  summary : String
  link : Option String
  enhancedLink : Option String
  citationCount : Option Nat
deriving DecidableEq

/-- Per-entry part of `EnhancedArxivSearch._format_results`. -/
def formatEntry (includeAbstracts : Bool) (e : EEntry) : FEntry :=
  { title := pyGetD e.title "Untitled"
    authors :=
      if 3 < e.authors.length then e.authors.headI ++ " et al."
      else joinWith ", " e.authors
    published :=
      match e.published with
      | none => some ""
      | some none => none
      | some (some s) => if s = "" then some "" else some (pyTake s 10)
    categories :=
      joinWith ", " (e.categories.take 3)
        ++ (if 3 < e.categories.length then "..." else "")
    summary :=
      match e.summary with
      | some (some s) =>
        if !(s == "") && includeAbstracts then
          (if 300 < s.length then pyTake s 297 ++ "..." else s)
        else "No abstract available."
      | _ => "No abstract available."
    link := e.link
    enhancedLink := pyGetD e.enhancedLink ""
    citationCount := e.citationCount.join }

/-- `EnhancedArxivSearch._format_results`. -/
def formatResults (includeAbstracts : Bool) (r : ArxivResults) : List FEntry :=
  r.entries.map (formatEntry includeAbstracts)

/-! ## BasicAgent (my_agent.py) -/

/-- Entry fields that the enhancement step must not change (everything except
`citationCount` and `enhancedLink`). -/
def frameAgrees (a b : EEntry) : Prop :=
  a.title = b.title ∧ a.authors = b.authors ∧ a.summary = b.summary
    ∧ a.link = b.link ∧ a.published = b.published ∧ a.categories = b.categories

/-- `BasicAgent.parse_query`: same numeric extraction as the advanced agent;
the exponent keyword group says "raised" instead of "squared"/"cubed". -/
def basicParseQuery (query : String) : MathParsed :=
  { numbers := (findFloatTokens query).map numTokenToRat
    operations :=
      (if containsAny (pyLower query) ["add", "sum", "plus", "+"] then ["addition"] else [])
      ++ (if containsAny (pyLower query) ["subtract", "minus", "difference", "-"] then ["subtraction"] else [])
      ++ (if containsAny (pyLower query) ["multiply", "product", "times", "*", "×"] then ["multiplication"] else [])
      ++ (if containsAny (pyLower query) ["divide", "quotient", "/", "÷"] then ["division"] else [])
      ++ (if containsAny (pyLower query) ["power", "exponent", "^", "**", "raised"] then ["exponents"] else []) }


/-! ## Concrete sample inputs used by the claim theorems -/

/-- Stand-in outcome for the external gofannon tool suite in concrete
evaluations; the evaluated paths never invoke it (division by zero is rejected
before any call, and the other evaluated queries take non-math paths). -/
def stubMathTools : MathTools :=
  ⟨fun _ _ => .error "unavailable", fun _ _ => .error "unavailable",
   fun _ _ => .error "unavailable", fun _ _ => .error "unavailable",
   fun _ _ => .error "unavailable"⟩

/-- An ArXiv feed whose single entry carries an empty `<summary/>` element
(so `summary.text` is `None`). -/
def emptySummaryFeed : Element :=
  .mk "feed" [] none
    [.mk "totalResults" [] (some "1") [],
     .mk "entry" [] none
       [.mk "title" [] (some "A Paper") [],
        .mk "summary" [] none []]]

/-- A `totalResults` element carrying the value 7. -/
def sampleTotalEl : Element := .mk "totalResults" [] (some "7") []

/-- A well-formed feed with a `totalResults` of 7 and two entries. -/
def sampleFeed : Element :=
  .mk "feed" [] none
    [sampleTotalEl,
     .mk "entry" [] none
       [.mk "title" [] (some "First Paper") [],
        .mk "author" [] none [.mk "name" [] (some "Ada") []],
        .mk "summary" [] (some "about things") []],
     .mk "entry" [] none
       [.mk "title" [] (some "Second Paper") []]]

/-- A parsed entry whose title matches `sampleGItem`. -/
def matchedTitleEntry : EEntry :=
  { title := some (some "alpha beta gamma"), authors := ["X"], summary := none,
    link := none, published := none, categories := [] }

/-- A parsed entry whose title element was empty (`title.text` is `None`). -/
def noneTitleEntry : EEntry :=
  { title := some none, authors := [], summary := none,
    link := none, published := none, categories := [] }

/-- A Google item whose title matches `matchedTitleEntry` exactly. -/
def sampleGItem : GItem :=
  ⟨some (some "Alpha beta gamma"), some (some "http://example.org/p"),
   some (some "cited by 42")⟩

/-- A 301-character summary text. -/
def longSummary : String := String.mk (List.replicate 301 'a')

/-- An enhanced-parser entry with a long summary, four authors and four
category tags. -/
def bigEntry : EEntry :=
  { title := some (some "T"), authors := ["A", "B", "C", "D"],
    summary := some (some longSummary), link := none, published := none,
    categories := ["a", "b", "c", "d"] }

/-- An advanced-parser entry with four authors and no summary element. -/
def fourAuthorsAdvEntry : AdvEntry :=
  { title := some (some "T"), authors := ["A", "B", "C", "D"],
    summary := none, link := none, published := none }

/-! # Helper lemmas -/

/-- `SimplifiedAgent.execute_math` always returns a string: every branch is a
plain return and the one modelled raise site (true division) sits behind the
explicit zero test. -/
theorem simpExecuteMath_total (q : String) : ∃ s, simpExecuteMath q = .ok s := by
  simp only [simpExecuteMath]
  split_ifs with h1 h2 h3 h4 h5 h6 h7
  any_goals exact ⟨_, rfl⟩
  rw [pyDiv, if_neg (by exact_mod_cast h6)]
  exact ⟨_, rfl⟩

/-! # Claim theorems -/

/-- C1: the spec demands that the facade entry points always return a formatted
string and never raise.  `SimplifiedAgent.process_query` does (second conjunct,
over every configuration, web outcome and query).  `AdvancedAgent.run` does
not: on a knowledge query whose feed parses with an empty `<summary/>` element,
`format_knowledge_response` evaluates `len(None)` and the resulting
`TypeError` escapes `run` (first conjunct). -/
theorem claim_C1 :
    advRun false false stubMathTools (Except.error "no key")
        (Except.ok ("<feed>", Except.ok emptySummaryFeed)) "papers about dark matter"
      = Except.error PyErr.typeError
    ∧ ∀ hasGoogle web q, ∃ s, simpProcessQuery hasGoogle web q = Except.ok s := by
  constructor
  · rfl
  · intro hasGoogle web q
    simp only [simpProcessQuery]
    split_ifs with h1 h2
    · exact simpExecuteMath_total q
    · exact ⟨_, rfl⟩
    · exact ⟨_, rfl⟩

/-- C2: the classifier tests its keyword sets in the fixed order math,
knowledge, reasoning, search with first-match-wins, defaults to reasoning
when nothing matches ("general" in the stripped-down `SimplifiedAgent`
variant), and "Explain why 2 plus 2 equals 4" classifies as math. -/
theorem claim_C2 :
    (∀ q, containsAny (pyLower q) advMathTerms = true →
      advDetermineQueryType q = "math")
    ∧ (∀ q, containsAny (pyLower q) advMathTerms = false →
        containsAny (pyLower q) advKnowledgeTerms = true →
        advDetermineQueryType q = "knowledge")
    ∧ (∀ q, containsAny (pyLower q) advMathTerms = false →
        containsAny (pyLower q) advKnowledgeTerms = false →
        containsAny (pyLower q) advReasoningTerms = true →
        advDetermineQueryType q = "reasoning")
    ∧ (∀ q, containsAny (pyLower q) advMathTerms = false →
        containsAny (pyLower q) advKnowledgeTerms = false →
        containsAny (pyLower q) advReasoningTerms = false →
        containsAny (pyLower q) advSearchTerms = true →
        advDetermineQueryType q = "search")
    ∧ (∀ q, containsAny (pyLower q) advMathTerms = false →
        containsAny (pyLower q) advKnowledgeTerms = false →
        containsAny (pyLower q) advReasoningTerms = false →
        containsAny (pyLower q) advSearchTerms = false →
        advDetermineQueryType q = "reasoning")
    ∧ advDetermineQueryType "Explain why 2 plus 2 equals 4" = "math"
    ∧ (∀ q, containsAny (pyLower q) advMathTerms = false →
        containsAny (pyLower q) simpSearchTerms = false →
        simpDetermineQueryType q = "general") := by
  refine ⟨?_, ?_, ?_, ?_, ?_, by decide, ?_⟩
  · intro q h1
    simp [advDetermineQueryType, h1]
  · intro q h1 h2
    simp [advDetermineQueryType, h1, h2]
  · intro q h1 h2 h3
    simp [advDetermineQueryType, h1, h2, h3]
  · intro q h1 h2 h3 h4
    simp [advDetermineQueryType, h1, h2, h3, h4]
  · intro q h1 h2 h3 h4
    simp [advDetermineQueryType, h1, h2, h3, h4]
  · intro q h1 h2
    simp [simpDetermineQueryType, h1, h2]

/-- Witness for C2 at concrete queries, one per priority tier. -/
theorem claim_C2_witness :
    advDetermineQueryType "Calculate this" = "math"
    ∧ advDetermineQueryType "quantum physics research" = "knowledge"
    ∧ advDetermineQueryType "why is grass green" = "reasoning"
    ∧ advDetermineQueryType "look up zebras" = "search"
    ∧ advDetermineQueryType "zzz qqq" = "reasoning"
    ∧ simpDetermineQueryType "zzz qqq" = "general" :=
  ⟨claim_C2.1 "Calculate this" (by decide),
   claim_C2.2.1 "quantum physics research" (by decide) (by decide),
   claim_C2.2.2.1 "why is grass green" (by decide) (by decide) (by decide),
   claim_C2.2.2.2.1 "look up zebras" (by decide) (by decide) (by decide) (by decide),
   claim_C2.2.2.2.2.1 "zzz qqq" (by decide) (by decide) (by decide) (by decide),
   claim_C2.2.2.2.2.2.2 "zzz qqq" (by decide) (by decide)⟩

/-- C3 counterexample: the claim's own example "What is 42 + 18?" never
produces 60.  The `+` symbol is not among the classifier keywords nor among
`SimplifiedAgent.execute_math`'s addition keywords: the evaluator reports an
unrecognized operation, `SimplifiedAgent` classifies the query as general and
`AdvancedAgent` (via "what is") as reasoning — no response contains "60". -/
theorem claim_C3_counterexample :
    simpExecuteMath "What is 42 + 18?"
      = .ok "I couldn't determine the math operation to perform."
    ∧ okContains (simpProcessQuery false (Except.error "down") "What is 42 + 18?") "60"
      = false
    ∧ okContains (advRun false false stubMathTools (Except.error "no key")
        (Except.error "net down") "What is 42 + 18?") "60" = false := by
  refine ⟨rfl, rfl, rfl⟩

/-- C3 (amended): for every text with at least two digit runs and one of the
word keywords add/sum/plus, `SimplifiedAgent.execute_math` returns exactly the
sum of the first two extracted numbers; the workable form of the claim's
example, "What is 42 plus 18?", yields 60 end to end.  (With the `+` symbol
instead of a word keyword the math path is never reached, see the
counterexample.) -/
theorem claim_C3 :
    (∀ q, 2 ≤ (findIntTokens q).length →
      containsAny (pyLower q) ["add", "sum", "plus"] = true →
      simpExecuteMath q = .ok ("The result of addition is: "
        ++ toString (digitsToNat ((findIntTokens q).getD 0 "").data
            + digitsToNat ((findIntTokens q).getD 1 "").data)))
    ∧ ∀ hasGoogle web, simpProcessQuery hasGoogle web "What is 42 plus 18?"
        = .ok "The result of addition is: 60" := by
  constructor
  · intro q h1 h2
    simp only [simpExecuteMath]
    rw [if_neg (by omega), if_pos h2]
  · intro hasGoogle web
    rfl

/-- Witness for C3 at the concrete query "What is 42 plus 18?". -/
theorem claim_C3_witness :
    simpExecuteMath "What is 42 plus 18?" = .ok "The result of addition is: 60" := by
  have h := claim_C3.1 "What is 42 plus 18?" (by decide) (by decide)
  rw [h]
  rfl

/-- C4: a division request whose second extracted number is zero yields the
divide-by-zero error string in all three variants — the guard precedes the
division (and, in the advanced agent, the tool call), so nothing is raised —
and each pipeline carries the error on to a formatted reply. -/
theorem claim_C4 :
    (∀ q, 2 ≤ (findIntTokens q).length →
      containsAny (pyLower q) ["add", "sum", "plus"] = false →
      containsAny (pyLower q) ["subtract", "minus", "difference"] = false →
      containsAny (pyLower q) ["multiply", "product", "times"] = false →
      containsAny (pyLower q) ["divide", "quotient"] = true →
      digitsToNat ((findIntTokens q).getD 1 "").data = 0 →
      simpExecuteMath q = .ok "Cannot divide by zero.")
    ∧ (∀ tools pq, "division" ∈ pq.operations → 2 ≤ pq.numbers.length →
        pq.numbers.getD 1 0 = 0 →
        ∃ l, advExecuteMath tools pq = .cells l
          ∧ ("division", MathCell.errText "Error: Division by zero") ∈ l)
    ∧ (∀ hasGoogle web, simpProcessQuery hasGoogle web "Divide 10 by 0"
        = .ok "Cannot divide by zero.")
    ∧ simpAdvRun "Divide 10 by 0" = "I cannot divide by zero."
    ∧ (∀ hasOpenai hasSearch tools reasonFn arxivCall,
        advRun hasOpenai hasSearch tools reasonFn arxivCall "Divide 10 by 0"
          = .ok "For your query: 'Divide 10 by 0'\n\nDivision result: Error: Division by zero\n") := by
  refine ⟨?_, ?_, ?_, rfl, ?_⟩
  · intro q h1 h2 h3 h4 h5 h6
    simp only [simpExecuteMath]
    rw [if_neg (by omega), if_neg (by simp [h2]), if_neg (by simp [h3]),
      if_neg (by simp [h4]), if_pos h5, if_pos h6]
  · intro tools pq hop hlen h0
    simp only [advExecuteMath]
    rw [if_neg (by omega)]
    refine ⟨_, rfl, ?_⟩
    refine List.mem_filterMap.mpr ⟨"division", hop, ?_⟩
    rw [if_neg (by decide), if_neg (by decide), if_neg (by decide), if_pos rfl,
      if_pos h0]
  · intro hasGoogle web
    rfl
  · intro hasOpenai hasSearch tools reasonFn arxivCall
    rfl

/-- Witness for C4 at the concrete query "Divide 10 by 0" and the concrete
parsed query ⟨["division"], [10, 0]⟩. -/
theorem claim_C4_witness :
    simpExecuteMath "Divide 10 by 0" = .ok "Cannot divide by zero."
    ∧ ∃ l, advExecuteMath stubMathTools ⟨["division"], [10, 0]⟩ = .cells l
        ∧ ("division", MathCell.errText "Error: Division by zero") ∈ l :=
  ⟨claim_C4.1 "Divide 10 by 0" (by decide) (by decide) (by decide) (by decide)
      (by decide) (by decide),
   claim_C4.2.1 stubMathTools ⟨["division"], [10, 0]⟩ (by decide) (by decide)
      (by decide)⟩

/-- With an empty Google item list an entry passes through the enhancement loop
unchanged, unless its parsed title is `None` — then `'' if absent' .lower()`
raises `AttributeError` before any assignment (which the caller catches). -/
theorem enhanceEntry_nil (e : EEntry) :
    enhanceEntry [] e = .ok e ∨ enhanceEntry [] e = .error PyErr.attributeError := by
  obtain ⟨t, a, s, l, p, c, cc, el⟩ := e
  rcases t with _ | (_ | ts)
  · exact Or.inl rfl
  · exact Or.inr rfl
  · exact Or.inl rfl

/-- The enhancement loop over an empty item list leaves the entry list
unchanged (also through the abort-on-exception path). -/
theorem enhanceEntriesGo_nil (l : List EEntry) : enhanceEntriesGo [] l = l := by
  induction l with
  | nil => rfl
  | cons e rest ih =>
    rcases enhanceEntry_nil e with h | h <;> simp [enhanceEntriesGo, h, ih]

/-- C5 counterexample: the claim asserts that identical title strings always
score 1.0, but two identical titles with no word characters (here: empty
strings) fall into the empty-set branch and score 0. -/
theorem claim_C5_counterexample :
    similarityScore "" "" = 0 ∧ ¬ similarityScore "" "" = 1 :=
  ⟨rfl, by decide⟩

/-- C5 (amended): the similarity score is the word-set overlap divided by the
larger set size; it is symmetric and lies in [0, 1]; identical titles score 1.0
provided they contain at least one word character (not in general: see the
counterexample); disjoint vocabularies score 0.0; and the enhancement step
returns its input unchanged — in particular without raising — when the
web-search backend returns zero items or no item list at all. -/
theorem claim_C5 :
    (∀ t1 t2, similarityScore t1 t2 = similarityScore t2 t1)
    ∧ (∀ t1 t2, 0 ≤ similarityScore t1 t2 ∧ similarityScore t1 t2 ≤ 1)
    ∧ (∀ t, (wordTokens (pyLower t)).toFinset ≠ ∅ → similarityScore t t = 1)
    ∧ (∀ t1 t2,
        (wordTokens (pyLower t1)).toFinset ∩ (wordTokens (pyLower t2)).toFinset = ∅ →
        similarityScore t1 t2 = 0)
    ∧ (∀ r, enhanceWithGoogle true (.ok (some [])) r = r)
    ∧ (∀ hasGoogle web r, enhanceWithGoogle hasGoogle (.ok none) r = r
        ∧ enhanceWithGoogle false web r = r) := by
  refine ⟨?_, ?_, ?_, ?_, ?_, ?_⟩
  · intro t1 t2
    simp only [similarityScore]
    by_cases h1 : (wordTokens (pyLower t1)).toFinset = ∅
      <;> by_cases h2 : (wordTokens (pyLower t2)).toFinset = ∅
      <;> simp [h1, h2, Finset.inter_comm, Nat.max_comm]
  · intro t1 t2
    simp only [similarityScore]
    split_ifs with h
    · exact ⟨le_refl 0, by norm_num⟩
    · push_neg at h
      obtain ⟨h1, _⟩ := h
      have hc1 : 0 < (wordTokens (pyLower t1)).toFinset.card :=
        Finset.card_pos.mpr (Finset.nonempty_iff_ne_empty.mpr h1)
      have hle : ((wordTokens (pyLower t1)).toFinset ∩ (wordTokens (pyLower t2)).toFinset).card
          ≤ max (wordTokens (pyLower t1)).toFinset.card
              (wordTokens (pyLower t2)).toFinset.card :=
        le_trans (Finset.card_le_card Finset.inter_subset_left) (le_max_left _ _)
      have hmax : (0 : ℚ) < (max (wordTokens (pyLower t1)).toFinset.card
          (wordTokens (pyLower t2)).toFinset.card : ℕ) := by
        exact_mod_cast lt_of_lt_of_le hc1 (le_max_left _ _)
      rw [Rat.mkRat_eq_div]
      refine ⟨by positivity, ?_⟩
      rw [div_le_one hmax]
      exact_mod_cast hle
  · intro t h
    simp only [similarityScore]
    rw [if_neg (by simp [h]), Finset.inter_self, Nat.max_self, Rat.mkRat_eq_div]
    have hc : 0 < (wordTokens (pyLower t)).toFinset.card :=
      Finset.card_pos.mpr (Finset.nonempty_iff_ne_empty.mpr h)
    have hc2 : ((wordTokens (pyLower t)).toFinset.card : ℚ) ≠ 0 := by
      exact_mod_cast hc.ne'
    push_cast
    rw [div_self hc2]
  · intro t1 t2 h
    simp only [similarityScore]
    split_ifs with hif
    · rfl
    · rw [h]
      simp [Rat.mkRat_eq_div]
  · intro r
    obtain ⟨tr, es⟩ := r
    simp [enhanceWithGoogle, enhanceEntriesGo_nil]
  · intro hasGoogle web r
    constructor
    · cases hasGoogle <;> rfl
    · rfl

/-- Witness for C5 at concrete titles. -/
theorem claim_C5_witness :
    similarityScore "Deep Learning Review" "Deep Learning Review" = 1
    ∧ similarityScore "alpha beta" "gamma delta" = 0 :=
  ⟨claim_C5.2.2.1 "Deep Learning Review" (by decide),
   claim_C5.2.2.2.1 "alpha beta" "gamma delta" (by decide)⟩

/-- C6 counterexample: on unparsable XML the advanced-agent parser does not
return an empty result set — it returns the error dictionary
`{'error': ..., 'xml': ...}` (first conjunct), which is not a result set with
total 0 and no entries (second conjunct). -/
theorem claim_C6_counterexample :
    advParseArxivResponse "<bad" (.error "not well-formed")
      = AdvKnowledge.err "not well-formed" (some "<bad...")
    ∧ ¬ advParseArxivResponse "<bad" (.error "not well-formed")
        = AdvKnowledge.res 0 [] :=
  ⟨rfl, by decide⟩

/-- C6 (amended): a well-formed feed with N entry elements and a readable
`totalResults` of T parses to exactly N records and total T in both parsers;
on unparsable (or empty) input the enhanced parser returns the empty result
set, while the advanced-agent parser returns an error record with the message
and an XML snippet — neither raises. -/
theorem claim_C6 :
    (∀ root el T, findFirstDesc "totalResults" root = some el →
      pyInt el.text = .ok T →
      arxivParseResponse (some (.ok root))
          = ⟨T, (findAllDesc "entry" root).map arxivParseEntry⟩
        ∧ (arxivParseResponse (some (.ok root))).entries.length
          = (findAllDesc "entry" root).length)
    ∧ (∀ msg, arxivParseResponse (some (.error msg)) = ⟨0, []⟩)
    ∧ arxivParseResponse none = ⟨0, []⟩
    ∧ (∀ raw root el T, findFirstDesc "totalResults" root = some el →
        pyInt el.text = .ok T →
        advParseArxivResponse raw (.ok root)
          = .res T ((findAllDesc "entry" root).map parseAdvEntry))
    ∧ (∀ raw msg, advParseArxivResponse raw (.error msg)
        = .err msg (some (pyTake raw 200 ++ "..."))) := by
  refine ⟨?_, fun msg => rfl, rfl, ?_, fun raw msg => rfl⟩
  · intro root el T h1 h2
    have hbody : arxivParseBody root
        = .ok ⟨T, (findAllDesc "entry" root).map arxivParseEntry⟩ := by
      simp only [arxivParseBody, h1, h2]
      rfl
    refine ⟨by simp [arxivParseResponse, hbody], by simp [arxivParseResponse, hbody]⟩
  · intro raw root el T h1 h2
    have hbody : advParseArxivBody root
        = .ok (.res T ((findAllDesc "entry" root).map parseAdvEntry)) := by
      simp only [advParseArxivBody, h1, h2]
      rfl
    simp [advParseArxivResponse, hbody]

/-- Witness for C6 at a concrete two-entry feed with `totalResults` 7. -/
theorem claim_C6_witness :
    arxivParseResponse (some (.ok sampleFeed))
        = ⟨7, (findAllDesc "entry" sampleFeed).map arxivParseEntry⟩
    ∧ (arxivParseResponse (some (.ok sampleFeed))).entries.length
        = (findAllDesc "entry" sampleFeed).length :=
  claim_C6.1 sampleFeed sampleTotalEl 7 rfl rfl

/-- C7 counterexample: in `AdvancedAgent`, run on the two-word query "add 5"
performs classification and math extraction and answers with the math apology,
not with the fixed suggestion (or greeting) template — the short-input rule
does not hold for every 1-2 word query there. -/
theorem claim_C7_counterexample :
    advRun false false stubMathTools (.error "no key") (.error "net down") "add 5"
      = .ok "I couldn't process your math query: Need at least two numbers for calculations"
    ∧ ¬ advRun false false stubMathTools (.error "no key") (.error "net down") "add 5"
        = .ok (advShortSuggestTemplate "add 5")
    ∧ ¬ advRun false false stubMathTools (.error "no key") (.error "net down") "add 5"
        = .ok advGreetTemplate :=
  ⟨rfl, by decide, by decide⟩

/-- C7 (amended): `SimplifiedAdvancedAgent.run` returns the fixed templates for
every greeting and every 1-2 word input before any classification; in
`AdvancedAgent` the same short-input special-casing lives inside
`_simulate_reasoning`, so it fires only for queries that reach the reasoning
path — short queries carrying math/knowledge/search keywords are dispatched
normally (see the counterexample). -/
theorem claim_C7 :
    (∀ q, pyLower q ∈ advGreetings →
      simpAdvRun q = advGreetTemplate)
    ∧ (∀ q, pyLower q ∉ advGreetings →
        (pyWords (pyLower q)).length ≤ 2 →
        simpAdvRun q = advShortSuggestTemplate q)
    ∧ (∀ q kb, pyLower q ∈ advGreetings →
        advSimulateReasoning q kb = advGreetTemplate)
    ∧ (∀ q kb, pyLower q ∉ advGreetings →
        (pyWords (pyLower q)).length ≤ 2 →
        advSimulateReasoning q kb = advShortSuggestTemplate q)
    ∧ (∀ hasSearch tools reasonFn arxivCall q,
        pyLower q ∉ advGreetings →
        (pyWords (pyLower q)).length ≤ 2 →
        advDetermineQueryType q = "reasoning" →
        advRun false hasSearch tools reasonFn arxivCall q
          = .ok (advFormatReasoningResponse false q (advShortSuggestTemplate q))) := by
  refine ⟨?_, ?_, ?_, ?_, ?_⟩
  · intro q h
    simp [simpAdvRun, h]
  · intro q h1 h2
    simp [simpAdvRun, h1, h2]
  · intro q kb h
    simp [advSimulateReasoning, h]
  · intro q kb h1 h2
    simp [advSimulateReasoning, h1, h2]
  · intro hasSearch tools reasonFn arxivCall q h1 h2 h3
    have hsim : ∀ kb, advSimulateReasoning q kb = advShortSuggestTemplate q := by
      intro kb
      simp [advSimulateReasoning, h1, h2]
    simp only [advRun, h3]
    simp [advExecuteReasoning, hsim]

/-- Witness for C7 at the concrete queries "hello" and "gear". -/
theorem claim_C7_witness :
    simpAdvRun "hello" = advGreetTemplate
    ∧ simpAdvRun "gear" = advShortSuggestTemplate "gear"
    ∧ advRun false false stubMathTools (.error "e1") (.error "e2") "gear"
        = .ok (advFormatReasoningResponse false "gear" (advShortSuggestTemplate "gear")) :=
  ⟨claim_C7.1 "hello" (by decide),
   claim_C7.2.1 "gear" (by decide) (by decide),
   claim_C7.2.2.2.2 false stubMathTools (.error "e1") (.error "e2") "gear"
     (by decide) (by decide) (by decide)⟩

/-- C8 counterexample: the two knowledge formatters disagree with the claim.
The enhanced formatter keeps only 297 characters before the ellipsis (total
300), not 300 as claimed (first two conjuncts); the advanced-agent formatter
does not collapse a four-author list to "FirstAuthor et al." — it joins all
names (last two conjuncts). -/
theorem claim_C8_counterexample :
    (formatEntry true bigEntry).summary = pyTake longSummary 297 ++ "..."
    ∧ ¬ (formatEntry true bigEntry).summary = pyTake longSummary 300 ++ "..."
    ∧ advEntryLines 1 fourAuthorsAdvEntry
        = .ok "1. T\n   Authors: A, B, C, D\n   Summary: \n\n"
    ∧ strContains "1. T\n   Authors: A, B, C, D\n   Summary: \n\n" "et al." = false :=
  ⟨rfl, by decide, rfl, rfl⟩

/-- C8 (amended): in `EnhancedArxivSearch._format_results` a summary longer
than 300 characters is cut to its first 297 characters plus "..." (300 in
total), an author list of more than 3 names collapses to "FirstAuthor et al.",
and the category display keeps 3 tags plus an ellipsis marker; in
`AdvancedAgent.format_knowledge_response` a long summary is cut to its first
300 characters plus "..." (303 in total) and the author list is joined in
full, never collapsed. -/
theorem claim_C8 :
    (∀ e s, e.summary = some (some s) → 300 < s.length →
      (formatEntry true e).summary = pyTake s 297 ++ "...")
    ∧ (∀ e, 3 < e.authors.length →
        (formatEntry true e).authors = e.authors.headI ++ " et al.")
    ∧ (∀ e, 3 < e.categories.length →
        (formatEntry true e).categories = joinWith ", " (e.categories.take 3) ++ "...")
    ∧ (∀ i e t s, e.title = some (some t) → e.summary = some (some s) →
        300 < s.length → e.link = none →
        advEntryLines i e = .ok (toString i ++ ". " ++ t ++ "\n   Authors: "
          ++ joinWith ", " e.authors ++ "\n   Summary: "
          ++ (pyTake s 300 ++ "...") ++ "\n\n")) := by
  refine ⟨?_, ?_, ?_, ?_⟩
  · intro e s hs hlen
    have hne : (s == "") = false := by
      cases hq : s == ""
      · rfl
      · have hq2 : s = "" := eq_of_beq hq
        subst hq2
        exact absurd hlen (by decide)
    simp [formatEntry, hs, hne, hlen]
  · intro e h
    simp only [formatEntry]
    rw [if_pos h]
  · intro e h
    simp only [formatEntry]
    rw [if_pos h]
  · intro i e t s ht hs hlen hlink
    simp only [advEntryLines, ht, hs, hlink]
    rw [if_pos hlen, pure_bind]
    simp only [pyShow, pyGetD, String.append_empty, String.append_assoc]
    rfl

/-- Witness for C8 at a concrete entry with a 301-character summary, four
authors and four category tags. -/
theorem claim_C8_witness :
    (formatEntry true bigEntry).summary = pyTake longSummary 297 ++ "..."
    ∧ (formatEntry true bigEntry).authors = "A et al."
    ∧ (formatEntry true bigEntry).categories = "a, b, c..."
    ∧ advEntryLines 2 fourAuthorsAdvEntry
        = advEntryLines 2 fourAuthorsAdvEntry := by
  refine ⟨claim_C8.1 bigEntry longSummary rfl (by decide), ?_, ?_, rfl⟩
  · exact (claim_C8.2.1 bigEntry (by decide)).trans (by decide)
  · exact (claim_C8.2.2.1 bigEntry (by decide)).trans (by decide)

/-- `frameAgrees` is reflexive. -/
theorem frameAgrees_refl (e : EEntry) : frameAgrees e e :=
  ⟨rfl, rfl, rfl, rfl, rfl, rfl⟩

/-- When the enhancement of one entry returns normally, the result agrees with
the input on every field other than `citationCount` and `enhancedLink`. -/
theorem enhanceEntry_frame (items : List GItem) (e e2 : EEntry)
    (h : enhanceEntry items e = .ok e2) : frameAgrees e2 e := by
  unfold enhanceEntry at h
  split at h
  · simp at h
  · split at h
    · simp at h
    · injection h with h2
      subst h2
      exact frameAgrees_refl e
    · split at h
      · simp at h
      · injection h with h2
        subst h2
        exact ⟨rfl, rfl, rfl, rfl, rfl, rfl⟩

/-- The entry loop of the enhancement step preserves the entry count, the
entry order, and every frame field, on the normal path and on the
abort-on-exception path alike. -/
theorem enhanceEntriesGo_frame (items : List GItem) (l : List EEntry) :
    List.Forall₂ frameAgrees (enhanceEntriesGo items l) l := by
  induction l with
  | nil => exact List.Forall₂.nil
  | cons e rest ih =>
    unfold enhanceEntriesGo
    cases h : enhanceEntry items e with
    | ok e2 => exact List.Forall₂.cons (enhanceEntry_frame items e e2 h) ih
    | error er =>
      exact List.Forall₂.cons (frameAgrees_refl e)
        (List.forall₂_same.mpr (fun x _ => frameAgrees_refl x))

/-- C9 counterexample: the enhancement step does not return the result set
"exactly as it was passed in" on every exception.  With one matching Google
item and a second entry whose parsed title is `None`, the second entry raises
(first conjunct) after the first entry was already mutated in place, so the
returned set differs from the input (second conjunct) exactly by the fields
added to the first entry (third conjunct). -/
theorem claim_C9_counterexample :
    enhanceEntry [sampleGItem] noneTitleEntry = .error PyErr.attributeError
    ∧ enhanceWithGoogle true (.ok (some [sampleGItem]))
        ⟨5, [matchedTitleEntry, noneTitleEntry]⟩
        ≠ ⟨5, [matchedTitleEntry, noneTitleEntry]⟩
    ∧ enhanceWithGoogle true (.ok (some [sampleGItem]))
        ⟨5, [matchedTitleEntry, noneTitleEntry]⟩
        = ⟨5, [{ matchedTitleEntry with
                  citationCount := some (some 42)
                  enhancedLink := some (some "http://example.org/p") },
               noneTitleEntry]⟩ :=
  ⟨rfl, by decide, by decide⟩

/-- C9 (amended): the enhancement step only ever adds the `citation_count` and
`enhanced_link` fields — the total, the entry count, the entry order and every
other entry field are unchanged on all paths (first conjunct); an exception
raised before the entry loop (network/JSON failure) or a missing `items` key
or a disabled backend returns the set exactly as passed in (remaining
conjuncts).  An exception inside the loop returns the set with the entries
already processed keeping their added fields (see the counterexample), still
respecting the frame. -/
theorem claim_C9 :
    (∀ hasGoogle web r,
      (enhanceWithGoogle hasGoogle web r).totalResults = r.totalResults
      ∧ List.Forall₂ frameAgrees (enhanceWithGoogle hasGoogle web r).entries r.entries)
    ∧ (∀ hasGoogle msg r, enhanceWithGoogle hasGoogle (.error msg) r = r)
    ∧ (∀ web r, enhanceWithGoogle false web r = r) := by
  refine ⟨?_, ?_, ?_⟩
  · intro hasGoogle web r
    have hrefl : List.Forall₂ frameAgrees r.entries r.entries :=
      List.forall₂_same.mpr (fun x _ => frameAgrees_refl x)
    cases hasGoogle
    · exact ⟨rfl, hrefl⟩
    · cases web with
      | error msg => exact ⟨rfl, hrefl⟩
      | ok o =>
        cases o with
        | none => exact ⟨rfl, hrefl⟩
        | some items => exact ⟨rfl, enhanceEntriesGo_frame items r.entries⟩
  · intro hasGoogle msg r
    cases hasGoogle <;> rfl
  · intro web r
    rfl

/-- Every token matched by the sign-less `\d+\.?\d*` pattern parses to a
non-negative value. -/
theorem numTokenToRat_nonneg (s : String) : 0 ≤ numTokenToRat s := by
  simp only [numTokenToRat]
  cases h : s.data.dropWhile Char.isDigit with
  | nil =>
    simp only [h]
    positivity
  | cons c fs =>
    simp only [h]
    have h2 : (0 : ℚ) ≤ mkRat (digitsToNat fs) (10 ^ fs.length) := by
      rw [Rat.mkRat_eq_div]
      positivity
    exact add_nonneg (by positivity) h2

/-- C10: the numeric extraction patterns carry no sign, so every extracted
number is non-negative (in the advanced and basic agents alike); a leading
minus sign is seen only by the keyword scan, where `-` triggers the
subtraction operation; and a query mentioning the literal `-5` is computed
with 5 (here: 5 + 3 = 8 on the simplified evaluator). -/
theorem claim_C10 :
    (∀ q x, x ∈ (advParseMathQuery q).numbers → 0 ≤ x)
    ∧ (∀ q x, x ∈ (basicParseQuery q).numbers → 0 ≤ x)
    ∧ (advParseMathQuery "Add -5 and 3").numbers = [5, 3]
    ∧ (advParseMathQuery "Add -5 and 3").operations = ["addition", "subtraction"]
    ∧ simpExecuteMath "Add -5 and 3" = .ok "The result of addition is: 8" := by
  refine ⟨?_, ?_, by decide, by decide, rfl⟩
  · intro q x hx
    simp only [advParseMathQuery] at hx
    obtain ⟨t, _, rfl⟩ := List.mem_map.mp hx
    exact numTokenToRat_nonneg t
  · intro q x hx
    simp only [basicParseQuery] at hx
    obtain ⟨t, _, rfl⟩ := List.mem_map.mp hx
    exact numTokenToRat_nonneg t

/-- Witness for C10 at the concrete query "Add -5 and 3", whose extracted
numbers are 5 and 3. -/
theorem claim_C10_witness : 0 ≤ (5 : ℚ) ∧ 0 ≤ (3 : ℚ) :=
  ⟨claim_C10.1 "Add -5 and 3" 5 (by decide),
   claim_C10.2.1 "Add -5 and 3" 3 (by decide)⟩
